import Mathlib

/-!
Verification development for the DPDK packet reflector
(`src/main.rs`, `src/reflector.rs`).

The two programs share the same `main` / `wire_ports` shape and differ in
tuning constants (`RING_SIZE`, `NUM_MBUFS`, `MAX_PKT_BURST`) and in the body
of `port_init`.  The embedding below models:

* one iteration of the `loop` inside `wire_ports` as a function from the
  loop state (the burst array and the two `u64` counters) and the
  environment's responses (`rx` — the buffers `rte_eth_rx_burst` wrote into
  the array, `t` — the count `rte_eth_tx_burst` accepted) to the successor
  state together with the observable effects of the iteration;
* `port_init` of each file as a function over an environment record holding
  the results of the external DPDK calls, returning the `Result`, the lines
  printed to stdout and stderr, and the ordered trace of external calls made;
* `main` (identical in both files up to the `port_init` it calls) as a
  function from the EAL result and the remaining argument list to the final
  outcome (exit with a status, or entering `wire_ports`).

Rust `u64` addition (`+=`) is modelled as checked addition: arithmetic
overflow is an arithmetic error in Rust, so an overflowing iteration is
modelled as `none` rather than as a wrapped counter value.
-/

/-- One past the largest value of a Rust `u64`. -/
def u64size : Nat := 2 ^ 64

/-- Checked `u64` addition, modelling Rust `+=` on the `u64` counters of
`wire_ports`; `none` models the arithmetic-overflow error. -/
def u64add (a b : Nat) : Option Nat :=
  if a + b < u64size then some (a + b) else none

/-- Packet-buffer handles (`*mut rte_mbuf`); the null pointer is `0`. -/
abbrev Buf := Nat

/-- The mutable state of `wire_ports`: the burst array `bufs` (of length
`MAX_PKT_BURST`, initially null pointers) and the two `u64` counters. -/
structure LoopState where
  bufs : List Buf
  total_forwarded : Nat
  total_dropped : Nat
  deriving DecidableEq

/-- The observable outcome of one loop iteration: successor state, the
buffer sequence handed to `rte_eth_tx_burst`, the buffers passed to
`rte_pktmbuf_free` (in call order), and the pair of counter values printed
by the two `println!` calls, when they execute. -/
structure IterResult where
  state : LoopState
  submitted : List Buf
  freed : List Buf
  printed : Option (Nat × Nat)
  deriving DecidableEq

/-- Effect of `rte_eth_rx_burst` on the burst array: the received buffers
`rx` are written into the first `rx.length` slots, the rest keep their
previous contents. -/
def writeBurst (bufs rx : List Buf) : List Buf :=
  rx ++ bufs.drop rx.length

/-- One iteration of the `loop` in `wire_ports`.  `rx` is the list of
buffers the ingress poll returned (`nb_rx = rx.length`) and `t` is the
count the egress accepted (`nb_tx`).  Mirrors the source: if `nb_rx > 0`,
transmit the array prefix, add `nb_tx` to `total_forwarded`, print the two
totals when `nb_tx > 0`, then, if `nb_tx < nb_rx`, add `nb_rx - nb_tx` to
`total_dropped` and free `bufs[i]` for `i` in `nb_tx..nb_rx`. -/
def wireIteration (s : LoopState) (rx : List Buf) (t : Nat) : Option IterResult :=
  if 0 < rx.length then
    match u64add s.total_forwarded t with
    | none => none
    | some fwd =>
      if t < rx.length then
        match u64add s.total_dropped (rx.length - t) with
        | none => none
        | some drp =>
          some ⟨⟨writeBurst s.bufs rx, fwd, drp⟩,
            (writeBurst s.bufs rx).take rx.length,
            (List.range' t (rx.length - t)).map (fun i => (writeBurst s.bufs rx).getD i 0),
            if 0 < t then some (fwd, s.total_dropped) else none⟩
      else
        some ⟨⟨writeBurst s.bufs rx, fwd, s.total_dropped⟩,
          (writeBurst s.bufs rx).take rx.length, [],
          if 0 < t then some (fwd, s.total_dropped) else none⟩
  else
    some ⟨s, [], [], none⟩

/-- Run a finite prefix of the infinite loop: each element of `steps` is the
environment's response `(rx, t)` for one iteration. -/
def runIters (s : LoopState) (steps : List (List Buf × Nat)) : Option LoopState :=
  match steps with
  | [] => some s
  | (rx, t) :: rest =>
    match wireIteration s rx t with
    | none => none
    | some res => runIters res.state rest

/-- State at entry of the loop: a null-initialised burst array of the given
size and both counters zero. -/
def initState (burst : Nat) : LoopState :=
  ⟨List.replicate burst 0, 0, 0⟩

namespace Reflector

def RING_SIZE : Nat := 2048

def NUM_MBUFS : Nat := 8192

def MBUF_CACHE_SIZE : Nat := 250

def MAX_PKT_BURST : Nat := 4

/-- Source line `let elt_size = 2048;` in `reflector.rs::port_init`. -/
def elt_size : Nat := 2048

/-- Source line `let total_mem_size = (NUM_MBUFS as usize * elt_size) + 4096;`. -/
def total_mem_size : Nat := NUM_MBUFS * elt_size + 4096

end Reflector

namespace MainRs

def RING_SIZE : Nat := 1024

def NUM_MBUFS : Nat := 1024

def MBUF_CACHE_SIZE : Nat := 250

def MAX_PKT_BURST : Nat := 32

end MainRs

/-- The external DPDK calls `port_init` can make, in source order; the trace
of calls a run performed records how far setup progressed. -/
inductive Call
  | validPort
  | allocMem
  | createPool
  | setOps
  | populate
  | poolInit
  | objIter
  | devInfo
  | configure
  | adjust
  | rxSetup
  | txSetup
  | start
  | macGet
  | promisc
  deriving DecidableEq

/-- Environment record: the results the external DPDK layer returns to the
calls of `port_init`.  `valid_port` is `rte_eth_dev_is_valid_port ≠ 0`,
`alloc_ok` is `!raw_mem.is_null()`, `pool_ok` is non-nullness of the created
mempool, the `*_ret` fields are the status codes of the remaining calls, and
`mac` is the six-byte address `rte_eth_macaddr_get` reports. -/
structure DpdkEnv where
  valid_port : Bool
  alloc_ok : Bool
  pool_ok : Bool
  populate_ret : Int
  dev_info_ret : Int
  configure_ret : Int
  adjust_ret : Int
  rx_setup_ret : Int
  tx_setup_ret : Int
  start_ret : Int
  macaddr_ret : Int
  promisc_ret : Int
  mac : List Nat
  deriving DecidableEq

/-- Observable result of `port_init`: the returned `Result`, the lines
printed to stdout and stderr, and the ordered trace of external calls. -/
structure PIResult where
  result : Except Int Unit
  outs : List String
  errs : List String
  calls : List Call

/-- Two-digit lowercase hex, modelling Rust `{:02x}` on a byte. -/
def hex2 (n : Nat) : String :=
  String.mk [Nat.digitChar (n / 16 % 16), Nat.digitChar (n % 16)]

/-- The MAC-report line `println!("Port {} MAC: ...")` of `port_init`. -/
def macLine (port : Nat) (mac : List Nat) : String :=
  "Port " ++ toString port ++ " MAC: " ++ hex2 (mac.getD 0 0) ++ ":" ++
    hex2 (mac.getD 1 0) ++ ":" ++ hex2 (mac.getD 2 0) ++ ":" ++
    hex2 (mac.getD 3 0) ++ ":" ++ hex2 (mac.getD 4 0) ++ ":" ++ hex2 (mac.getD 5 0)

namespace Reflector

/-- Model of `port_init` in `reflector.rs`: manual page-aligned allocation, empty
mempool creation and population, then device configuration.  Each early
`return Err(..)` of the source is one branch; the second component collects
`println!` lines, the third `eprintln!` lines, the fourth the call trace. -/
def port_init (env : DpdkEnv) (port : Nat) : PIResult :=
  if env.valid_port = false then
    ⟨Except.error (-1), [], [], [Call.validPort]⟩
  else if env.alloc_ok = false then
    ⟨Except.error (-1), [], ["Failed to allocate page-aligned memory"],
      [Call.validPort, Call.allocMem]⟩
  else if env.pool_ok = false then
    ⟨Except.error (-1), [], ["Cannot create empty mempool"],
      [Call.validPort, Call.allocMem, Call.createPool]⟩
  else if env.populate_ret < 0 then
    ⟨Except.error env.populate_ret, [],
      ["Error populating mempool: " ++ toString env.populate_ret],
      [Call.validPort, Call.allocMem, Call.createPool, Call.setOps, Call.populate]⟩
  else if env.dev_info_ret ≠ 0 then
    ⟨Except.error env.dev_info_ret, [], [],
      [Call.validPort, Call.allocMem, Call.createPool, Call.setOps, Call.populate,
       Call.poolInit, Call.objIter, Call.devInfo]⟩
  else if env.configure_ret ≠ 0 then
    ⟨Except.error env.configure_ret, [], [],
      [Call.validPort, Call.allocMem, Call.createPool, Call.setOps, Call.populate,
       Call.poolInit, Call.objIter, Call.devInfo, Call.configure]⟩
  else if env.adjust_ret ≠ 0 then
    ⟨Except.error env.adjust_ret, [], [],
      [Call.validPort, Call.allocMem, Call.createPool, Call.setOps, Call.populate,
       Call.poolInit, Call.objIter, Call.devInfo, Call.configure, Call.adjust]⟩
  else if env.rx_setup_ret < 0 then
    ⟨Except.error env.rx_setup_ret, [],
      ["Error setting up RX queue: " ++ toString env.rx_setup_ret],
      [Call.validPort, Call.allocMem, Call.createPool, Call.setOps, Call.populate,
       Call.poolInit, Call.objIter, Call.devInfo, Call.configure, Call.adjust,
       Call.rxSetup]⟩
  else if env.tx_setup_ret < 0 then
    ⟨Except.error env.tx_setup_ret, [], [],
      [Call.validPort, Call.allocMem, Call.createPool, Call.setOps, Call.populate,
       Call.poolInit, Call.objIter, Call.devInfo, Call.configure, Call.adjust,
       Call.rxSetup, Call.txSetup]⟩
  else if env.start_ret < 0 then
    ⟨Except.error env.start_ret, [], [],
      [Call.validPort, Call.allocMem, Call.createPool, Call.setOps, Call.populate,
       Call.poolInit, Call.objIter, Call.devInfo, Call.configure, Call.adjust,
       Call.rxSetup, Call.txSetup, Call.start]⟩
  else
    ⟨Except.ok (), [macLine port env.mac], [],
      [Call.validPort, Call.allocMem, Call.createPool, Call.setOps, Call.populate,
       Call.poolInit, Call.objIter, Call.devInfo, Call.configure, Call.adjust,
       Call.rxSetup, Call.txSetup, Call.start, Call.macGet, Call.promisc]⟩

end Reflector

namespace MainRs

/-- Model of `port_init` in `main.rs`: `rte_pktmbuf_pool_create` plus device setup;
unlike `reflector.rs`, every device-setup failure except `macaddr_get`
prints a stage-naming `eprintln!`, and the `macaddr_get` and promiscuous
results are checked. -/
def port_init (env : DpdkEnv) (port : Nat) : PIResult :=
  if env.valid_port = false then
    ⟨Except.error (-1), [], [], [Call.validPort]⟩
  else if env.pool_ok = false then
    ⟨Except.error (-1), [], ["Cannot create mbuf pool"],
      [Call.validPort, Call.createPool]⟩
  else if env.dev_info_ret ≠ 0 then
    ⟨Except.error env.dev_info_ret, [],
      ["Error getting device info for port " ++ toString port ++ ": " ++
        toString env.dev_info_ret],
      [Call.validPort, Call.createPool, Call.devInfo]⟩
  else if env.configure_ret ≠ 0 then
    ⟨Except.error env.configure_ret, [],
      ["Error configuring device: " ++ toString env.configure_ret],
      [Call.validPort, Call.createPool, Call.devInfo, Call.configure]⟩
  else if env.adjust_ret ≠ 0 then
    ⟨Except.error env.adjust_ret, [],
      ["Error adjusting ring sizes: " ++ toString env.adjust_ret],
      [Call.validPort, Call.createPool, Call.devInfo, Call.configure, Call.adjust]⟩
  else if env.rx_setup_ret < 0 then
    ⟨Except.error env.rx_setup_ret, [],
      ["Error setting up RX queue: " ++ toString env.rx_setup_ret],
      [Call.validPort, Call.createPool, Call.devInfo, Call.configure, Call.adjust,
       Call.rxSetup]⟩
  else if env.tx_setup_ret < 0 then
    ⟨Except.error env.tx_setup_ret, [],
      ["Error setting up TX queue: " ++ toString env.tx_setup_ret],
      [Call.validPort, Call.createPool, Call.devInfo, Call.configure, Call.adjust,
       Call.rxSetup, Call.txSetup]⟩
  else if env.start_ret < 0 then
    ⟨Except.error env.start_ret, [],
      ["Error starting device: " ++ toString env.start_ret],
      [Call.validPort, Call.createPool, Call.devInfo, Call.configure, Call.adjust,
       Call.rxSetup, Call.txSetup, Call.start]⟩
  else if env.macaddr_ret ≠ 0 then
    ⟨Except.error env.macaddr_ret, [], [],
      [Call.validPort, Call.createPool, Call.devInfo, Call.configure, Call.adjust,
       Call.rxSetup, Call.txSetup, Call.start, Call.macGet]⟩
  else if env.promisc_ret ≠ 0 then
    ⟨Except.error env.promisc_ret, [macLine port env.mac],
      ["Error enabling promiscuous mode: " ++ toString env.promisc_ret],
      [Call.validPort, Call.createPool, Call.devInfo, Call.configure, Call.adjust,
       Call.rxSetup, Call.txSetup, Call.start, Call.macGet, Call.promisc]⟩
  else
    ⟨Except.ok (), [macLine port env.mac], [],
      [Call.validPort, Call.createPool, Call.devInfo, Call.configure, Call.adjust,
       Call.rxSetup, Call.txSetup, Call.start, Call.macGet, Call.promisc]⟩

end MainRs

/-- Outcome of `main`: either `std::process::exit(code)` or entry into the
infinite `wire_ports(port, port)` loop (which the source never leaves). -/
inductive MainOutcome
  | exited (code : Nat)
  | loops (in_port out_port : Nat)
  deriving DecidableEq

/-- Result of `main`: outcome plus the stdout and stderr lines printed on
the way (the lines printed inside `wire_ports` itself are part of the loop
model, not of `MainResult`). -/
structure MainResult where
  outcome : MainOutcome
  outs : List String
  errs : List String

/-- Digit-list accumulator of Rust `u16::from_str`: all characters must be
ASCII digits and at least one is required. -/
def parseDigits (cs : List Char) : Option Nat :=
  match cs with
  | [] => none
  | _ => cs.foldlM (fun acc c => if c.isDigit then some (acc * 10 + (c.toNat - 48)) else none) 0

/-- Rust `str::parse::<u16>()`: an optional leading `+`, then one or more
ASCII digits, and the value must fit in 16 bits. -/
def parseU16 (s : String) : Option Nat :=
  match parseDigits
      (match s.data with
       | List.cons c rest => if c = '+' then rest else s.data
       | [] => []) with
  | none => none
  | some v => if v < 65536 then some v else none

/-- Model of `fn main()` (identical in `main.rs` and `reflector.rs` up to the
`port_init` it calls): EAL init, remaining-argument count check, port-id
parse, `port_init`, then entry into `wire_ports(port_id, port_id)`.
`remaining` models the argument slice left after EAL consumed its options
(`remaining_argc = remaining.length`, the port id is `remaining[1]`). -/
def progMain (pinit : Nat → PIResult) (eal_ret : Int) (remaining : List String) : MainResult :=
  if eal_ret < 0 then
    ⟨MainOutcome.exited 1, [], ["Error with EAL initialization"]⟩
  else if remaining.length ≠ 2 then
    ⟨MainOutcome.exited 1,
      ["Usage: reflector [EAL options] -- <port_id>",
       "Example: sudo ./reflector -l 0 --no-huge --no-pci --vdev \x27net_pcap0,rx_pcap=test.pcap,tx_pcap=out.pcap\x27 -- 0"],
      []⟩
  else
    match parseU16 (remaining.getD 1 "") with
    | none => ⟨MainOutcome.exited 1, [], ["Invalid port number"]⟩
    | some port =>
      match (pinit port).result with
      | Except.error e =>
        ⟨MainOutcome.exited 1, (pinit port).outs,
          (pinit port).errs ++
            ["Cannot init port " ++ toString port ++ ": error " ++ toString e]⟩
      | Except.ok _ =>
        ⟨MainOutcome.loops port port,
          (pinit port).outs ++
            ["Starting single-port loopback on port " ++ toString port,
             "Packets received on port " ++ toString port ++
               " will be sent back out port " ++ toString port],
          (pinit port).errs⟩

/-- Model of `main` in `reflector.rs`. -/
def Reflector.mainProg (env : DpdkEnv) (eal_ret : Int) (remaining : List String) : MainResult :=
  progMain (Reflector.port_init env) eal_ret remaining

/-- Model of `main` in `main.rs`. -/
def MainRs.mainProg (env : DpdkEnv) (eal_ret : Int) (remaining : List String) : MainResult :=
  progMain (MainRs.port_init env) eal_ret remaining

/-- Test whether a `Result` is `Ok`. -/
def exceptOk : Except Int Unit → Bool
  | Except.ok _ => true
  | Except.error _ => false

/-- Holds exactly when `main` reaches `wire_ports`: two remaining
arguments, a parsable port id, and a successful `port_init`. -/
def setupOk (pinit : Nat → PIResult) (remaining : List String) : Bool :=
  remaining.length == 2 &&
    (match parseU16 (remaining.getD 1 "") with
     | none => false
     | some p => exceptOk (pinit p).result)

/-- The six device-setup stages of `port_init` named by claim C9. -/
inductive Stage
  | devInfo
  | configure
  | adjust
  | rxSetup
  | txSetup
  | start
  deriving DecidableEq

def macZero : List Nat := [0, 0, 0, 0, 0, 0]

/-- Environment in which every external call succeeds. -/
def envOk : DpdkEnv :=
  ⟨true, true, true, 0, 0, 0, 0, 0, 0, 0, 0, 0, macZero⟩

/-- Environment in which the page-aligned allocation returns null and
everything else succeeds. -/
def envAllocFail : DpdkEnv :=
  ⟨true, false, true, 0, 0, 0, 0, 0, 0, 0, 0, 0, macZero⟩

/-- Environment in which exactly the given device-setup stage fails with
status `code` and every other call succeeds. -/
def envFailAt : Stage → Int → DpdkEnv
  | Stage.devInfo, c => ⟨true, true, true, 0, c, 0, 0, 0, 0, 0, 0, 0, macZero⟩
  | Stage.configure, c => ⟨true, true, true, 0, 0, c, 0, 0, 0, 0, 0, 0, macZero⟩
  | Stage.adjust, c => ⟨true, true, true, 0, 0, 0, c, 0, 0, 0, 0, 0, macZero⟩
  | Stage.rxSetup, c => ⟨true, true, true, 0, 0, 0, 0, c, 0, 0, 0, 0, macZero⟩
  | Stage.txSetup, c => ⟨true, true, true, 0, 0, 0, 0, 0, c, 0, 0, 0, macZero⟩
  | Stage.start, c => ⟨true, true, true, 0, 0, 0, 0, 0, 0, c, 0, 0, macZero⟩

/-- The stderr line `main.rs::port_init` prints when the given stage fails
with status `code` on the given port. -/
def mainMsg : Stage → Nat → Int → String
  | Stage.devInfo, port, code =>
    "Error getting device info for port " ++ toString port ++ ": " ++ toString code
  | Stage.configure, _, code => "Error configuring device: " ++ toString code
  | Stage.adjust, _, code => "Error adjusting ring sizes: " ++ toString code
  | Stage.rxSetup, _, code => "Error setting up RX queue: " ++ toString code
  | Stage.txSetup, _, code => "Error setting up TX queue: " ++ toString code
  | Stage.start, _, code => "Error starting device: " ++ toString code

/-- The first 18 characters of each `mainMsg` lie inside its fixed prefix
and identify the failing stage. -/
def stageKey : Stage → List Char :=
  fun st => ((mainMsg st 0 0).data.take 18)

/-- stderr of `main.rs::port_init` when exactly `st` fails with `code`. -/
def mainStageErrs (st : Stage) (port : Nat) (code : Int) : List String :=
  (MainRs.port_init (envFailAt st code) port).errs

/-- stderr of `reflector.rs::port_init` when exactly `st` fails with `code`. -/
def reflStageErrs (st : Stage) (port : Nat) (code : Int) : List String :=
  (Reflector.port_init (envFailAt st code) port).errs

/-! ## Helper lemmas about the forwarding loop -/

theorem u64add_eq (a b c : Nat) (h : u64add a b = some c) : c = a + b := by
  unfold u64add at h
  split at h
  · exact (Option.some.inj h).symm
  · cases h

theorem wireIteration_nil (s : LoopState) (t : Nat) :
    wireIteration s [] t = some ⟨s, [], [], none⟩ := rfl

theorem wireIteration_inv (s : LoopState) (rx : List Buf) (t : Nat) (res : IterResult)
    (h : wireIteration s rx t = some res) (hrx : rx ≠ []) :
    res.state.bufs = writeBurst s.bufs rx ∧
    res.state.total_forwarded = s.total_forwarded + t ∧
    res.state.total_dropped = s.total_dropped + (rx.length - t) ∧
    res.submitted = (writeBurst s.bufs rx).take rx.length ∧
    res.freed = (List.range' t (rx.length - t)).map (fun i => (writeBurst s.bufs rx).getD i 0) ∧
    res.printed = (if 0 < t then some (s.total_forwarded + t, s.total_dropped) else none) := by
  have hlen : 0 < rx.length := List.length_pos.mpr hrx
  unfold wireIteration at h
  rw [if_pos hlen] at h
  cases hf : u64add s.total_forwarded t with
  | none => rw [hf] at h; cases h
  | some fwd =>
    rw [hf] at h
    dsimp only at h
    have hfwd := u64add_eq _ _ _ hf
    by_cases ht : t < rx.length
    · rw [if_pos ht] at h
      cases hd : u64add s.total_dropped (rx.length - t) with
      | none => rw [hd] at h; cases h
      | some drp =>
        rw [hd] at h
        dsimp only at h
        have hdrp := u64add_eq _ _ _ hd
        cases h
        subst hfwd hdrp
        exact ⟨rfl, rfl, rfl, rfl, rfl, rfl⟩
    · rw [if_neg ht] at h
      cases h
      subst hfwd
      have hz : rx.length - t = 0 := by omega
      rw [hz]
      refine ⟨rfl, rfl, ?_, rfl, by simp, rfl⟩
      dsimp only
      omega

theorem range_map_getD (l z : List Buf) (t : Nat) :
    (List.range' t (l.length - t)).map (fun i => (l ++ z).getD i 0) = l.drop t := by
  by_cases ht : t ≤ l.length
  · apply List.ext_getElem
    · simp
    · intro n h1 h2
      have hn : n < l.length - t := by simpa using h1
      have hlt : t + n < l.length := by omega
      rw [List.getElem_map, List.getElem_range', List.getElem_drop]
      have hone : t + 1 * n = t + n := by omega
      rw [hone, List.getD_eq_getElem (l ++ z) 0 (by simp; omega)]
      exact List.getElem_append_left hlt
  · have hz : l.length - t = 0 := by omega
    rw [hz]
    simp [List.drop_eq_nil_of_le (by omega : l.length ≤ t)]

theorem wireIteration_mono (s : LoopState) (rx : List Buf) (t : Nat) (res : IterResult)
    (h : wireIteration s rx t = some res) :
    s.total_forwarded ≤ res.state.total_forwarded ∧
    s.total_dropped ≤ res.state.total_dropped := by
  cases rx with
  | nil =>
    rw [wireIteration_nil] at h
    cases h
    exact ⟨Nat.le_refl _, Nat.le_refl _⟩
  | cons a as =>
    obtain ⟨-, h2, h3, -, -, -⟩ := wireIteration_inv s (a :: as) t res h (by simp)
    omega

/-! ## Claims about the forwarding loop -/

/-- Claim C1: in every iteration whose ingress poll returns `r > 0` buffers
of which the egress accepts `t` (`0 ≤ t ≤ r`), the iteration increases
`total_forwarded` by exactly `t` and `total_dropped` by exactly `r - t`,
and the counters change in no other way. -/
theorem wire_counter_update (s : LoopState) (rx : List Buf) (t : Nat) (res : IterResult)
    (h : wireIteration s rx t = some res) (hrx : rx ≠ []) (hle : t ≤ rx.length) :
    res.state.total_forwarded = s.total_forwarded + t ∧
    res.state.total_dropped = s.total_dropped + (rx.length - t) := by
  obtain ⟨-, h2, h3, -, -, -⟩ := wireIteration_inv s rx t res h hrx
  exact ⟨h2, h3⟩

theorem wire_counter_update_case :
    ((⟨⟨[10, 11, 12, 0], 7, 8⟩, [10, 11, 12], [12], some (7, 7)⟩ :
        IterResult).state.total_forwarded = 5 + 2) ∧
    ((⟨⟨[10, 11, 12, 0], 7, 8⟩, [10, 11, 12], [12], some (7, 7)⟩ :
        IterResult).state.total_dropped = 7 + ([10, 11, 12].length - 2)) :=
  wire_counter_update ⟨[0, 0, 0, 0], 5, 7⟩ [10, 11, 12] 2
    ⟨⟨[10, 11, 12, 0], 7, 8⟩, [10, 11, 12], [12], some (7, 7)⟩ rfl
    (by decide) (by decide)

/-- Claim C2: in every iteration receiving `rx` (pairwise-distinct buffers)
of which the egress accepts the prefix of length `t`, the freed buffers are
exactly the rejected positions `t..r-1`, each freed once, none of the
accepted prefix is freed, and `received = accepted + released`. -/
theorem burst_buffer_conservation (s : LoopState) (rx : List Buf) (t : Nat)
    (res : IterResult) (h : wireIteration s rx t = some res) (hrx : rx ≠ [])
    (hle : t ≤ rx.length) (hnd : rx.Nodup) :
    res.freed = rx.drop t ∧
    rx.length = t + res.freed.length ∧
    List.Disjoint (rx.take t) res.freed ∧
    res.freed.Nodup := by
  obtain ⟨-, -, -, -, h5, -⟩ := wireIteration_inv s rx t res h hrx
  have hfr : res.freed = rx.drop t := by
    rw [h5]
    unfold writeBurst
    exact range_map_getD rx (s.bufs.drop rx.length) t
  refine ⟨hfr, ?_, ?_, ?_⟩
  · rw [hfr, List.length_drop]; omega
  · intro b hbtake hbfr
    rw [hfr] at hbfr
    have hnd2 : (rx.take t ++ rx.drop t).Nodup := by
      rw [List.take_append_drop]; exact hnd
    exact (List.nodup_append.mp hnd2).2.2 hbtake hbfr
  · rw [hfr]
    exact List.Nodup.sublist (List.drop_sublist t rx) hnd

theorem burst_buffer_conservation_case :
    ((⟨⟨[21, 22, 23, 24], 1, 3⟩, [21, 22, 23, 24], [22, 23, 24], some (1, 0)⟩ :
        IterResult).freed = [21, 22, 23, 24].drop 1) ∧
    ([21, 22, 23, 24].length = 1 +
      (⟨⟨[21, 22, 23, 24], 1, 3⟩, [21, 22, 23, 24], [22, 23, 24], some (1, 0)⟩ :
        IterResult).freed.length) ∧
    List.Disjoint ([21, 22, 23, 24].take 1)
      (⟨⟨[21, 22, 23, 24], 1, 3⟩, [21, 22, 23, 24], [22, 23, 24], some (1, 0)⟩ :
        IterResult).freed ∧
    (⟨⟨[21, 22, 23, 24], 1, 3⟩, [21, 22, 23, 24], [22, 23, 24], some (1, 0)⟩ :
        IterResult).freed.Nodup :=
  burst_buffer_conservation ⟨[0, 0, 0, 0], 0, 0⟩ [21, 22, 23, 24] 1
    ⟨⟨[21, 22, 23, 24], 1, 3⟩, [21, 22, 23, 24], [22, 23, 24], some (1, 0)⟩ rfl
    (by decide) (by decide) (by decide)

/-- Claim C3: an iteration whose ingress poll returns 0 buffers performs no
egress submit and no release, prints nothing, and leaves both counters (and
the whole state) unchanged. -/
theorem zero_burst_noop (s : LoopState) (t : Nat) :
    wireIteration s [] t = some ⟨s, [], [], none⟩ := rfl

/-- Claim C4: across every finite sequence of loop iterations,
`total_forwarded` and `total_dropped` are non-decreasing and never reset:
the final value of each counter is at least its initial value, and by
instantiating with a one-element sequence, each single iteration is
non-decreasing as well. -/
theorem counters_monotone (s : LoopState) (steps : List (List Buf × Nat))
    (s2 : LoopState) (h : runIters s steps = some s2) :
    s.total_forwarded ≤ s2.total_forwarded ∧
    s.total_dropped ≤ s2.total_dropped := by
  induction steps generalizing s with
  | nil =>
    unfold runIters at h
    cases h
    exact ⟨Nat.le_refl _, Nat.le_refl _⟩
  | cons p rest ih =>
    obtain ⟨rx, t⟩ := p
    unfold runIters at h
    cases hw : wireIteration s rx t with
    | none => rw [hw] at h; cases h
    | some res =>
      rw [hw] at h
      have h1 := wireIteration_mono s rx t res hw
      have h2 := ih res.state h
      exact ⟨Nat.le_trans h1.1 h2.1, Nat.le_trans h1.2 h2.2⟩

theorem counters_monotone_case :
    (initState 4).total_forwarded ≤ (⟨[3, 4, 5, 0], 3, 2⟩ : LoopState).total_forwarded ∧
    (initState 4).total_dropped ≤ (⟨[3, 4, 5, 0], 3, 2⟩ : LoopState).total_dropped :=
  counters_monotone (initState 4) [([1, 2], 2), ([3, 4, 5], 1)] ⟨[3, 4, 5, 0], 3, 2⟩ rfl

/-- Claim C5: within one burst, the buffer sequence submitted to the egress
queue is exactly the sequence received from the ingress queue, in the same
order, with nothing inserted, removed or permuted. -/
theorem burst_order_preserved (s : LoopState) (rx : List Buf) (t : Nat)
    (res : IterResult) (h : wireIteration s rx t = some res) :
    res.submitted = rx := by
  cases rx with
  | nil =>
    rw [wireIteration_nil] at h
    cases h
    rfl
  | cons a as =>
    obtain ⟨-, -, -, h4, -, -⟩ := wireIteration_inv s (a :: as) t res h (by simp)
    rw [h4]
    unfold writeBurst
    exact List.take_left _ _

theorem burst_order_preserved_case :
    (⟨⟨[7, 8, 0, 0], 0, 2⟩, [7, 8], [7, 8], none⟩ : IterResult).submitted = [7, 8] :=
  burst_order_preserved ⟨[0, 0, 0, 0], 0, 0⟩ [7, 8] 0
    ⟨⟨[7, 8, 0, 0], 0, 2⟩, [7, 8], [7, 8], none⟩ rfl

/-- Claim C10: the cumulative totals are printed only in iterations where
the egress accepted at least one buffer; in an iteration with `r > 0` and
`t = 0`, `total_dropped` still grows by `r` but nothing is printed, and an
empty iteration prints nothing either. -/
theorem report_gating (s : LoopState) (rx : List Buf) (t : Nat) (res : IterResult)
    (h : wireIteration s rx t = some res) :
    (rx = [] → res.printed = none) ∧
    (rx ≠ [] → (res.printed ≠ none ↔ 0 < t)) ∧
    (rx ≠ [] → t = 0 →
      res.state.total_dropped = s.total_dropped + rx.length ∧ res.printed = none) := by
  refine ⟨?_, ?_, ?_⟩
  · intro hnil
    subst hnil
    rw [wireIteration_nil] at h
    cases h
    rfl
  · intro hrx
    obtain ⟨-, -, -, -, -, h6⟩ := wireIteration_inv s rx t res h hrx
    rw [h6]
    rcases Nat.eq_zero_or_pos t with ht | ht
    · subst ht; simp
    · simp [ht]
  · intro hrx ht
    subst ht
    obtain ⟨-, -, h3, -, -, h6⟩ := wireIteration_inv s rx 0 res h hrx
    rw [h3, h6]
    simp

theorem report_gating_case :
    ((⟨⟨[31, 32, 33, 0], 9, 7⟩, [31, 32, 33], [31, 32, 33], none⟩ :
        IterResult).state.total_dropped = 4 + [31, 32, 33].length) ∧
    ((⟨⟨[31, 32, 33, 0], 9, 7⟩, [31, 32, 33], [31, 32, 33], none⟩ :
        IterResult).printed = none) := by
  have h := report_gating ⟨[0, 0, 0, 0], 9, 4⟩ [31, 32, 33] 0
    ⟨⟨[31, 32, 33, 0], 9, 7⟩, [31, 32, 33], [31, 32, 33], none⟩ rfl
  exact ⟨(h.2.2 (by decide) rfl).1, (h.2.2 (by decide) rfl).2⟩

/-- Claim C6: with `NUM_MBUFS = 8192` mbufs of stride `elt_size = 2048` and
4096-byte alignment, the allocated region is `N * stride + alignment =
16781312` bytes, and the 2048-byte stride packs exactly two slots per
4096-byte page with zero inter-slot padding. -/
theorem pool_region_size :
    Reflector.total_mem_size = Reflector.NUM_MBUFS * Reflector.elt_size + 4096 ∧
    Reflector.total_mem_size = 16781312 ∧
    2 * Reflector.elt_size = 4096 ∧
    4096 % Reflector.elt_size = 0 := by
  refine ⟨rfl, by decide, by decide, by decide⟩

/-! ## Claims about setup and the CLI surface -/

/-- Claim C7: if the page-aligned allocation returns null (the port being
valid so execution reaches the allocation), `port_init` of `reflector.rs`
prints the allocation error and returns `Err(-1)` before any queue setup or
port start, and `main` exits with status 1 without entering `wire_ports`. -/
theorem alloc_failure_aborts (env : DpdkEnv) (port : Nat) (eal_ret : Int)
    (remaining : List String) (hv : env.valid_port = true) (ha : env.alloc_ok = false) :
    (Reflector.port_init env port).result = Except.error (-1) ∧
    (Reflector.port_init env port).errs = ["Failed to allocate page-aligned memory"] ∧
    (Reflector.port_init env port).calls = [Call.validPort, Call.allocMem] ∧
    Call.rxSetup ∉ (Reflector.port_init env port).calls ∧
    Call.txSetup ∉ (Reflector.port_init env port).calls ∧
    Call.start ∉ (Reflector.port_init env port).calls ∧
    (Reflector.mainProg env eal_ret remaining).outcome = MainOutcome.exited 1 := by
  have hpi : ∀ p, Reflector.port_init env p =
      ⟨Except.error (-1), [], ["Failed to allocate page-aligned memory"],
        [Call.validPort, Call.allocMem]⟩ := by
    intro p
    unfold Reflector.port_init
    rw [hv, ha]
    simp
  refine ⟨by rw [hpi port], by rw [hpi port], by rw [hpi port],
    by rw [hpi port]; decide, by rw [hpi port]; decide, by rw [hpi port]; decide, ?_⟩
  unfold Reflector.mainProg progMain
  by_cases he : eal_ret < 0
  · rw [if_pos he]
  · rw [if_neg he]
    by_cases hlen : remaining.length ≠ 2
    · rw [if_pos hlen]
    · rw [if_neg hlen]
      cases parseU16 (remaining.getD 1 "") with
      | none => rfl
      | some p =>
        dsimp only
        rw [hpi p]

theorem alloc_failure_aborts_case :
    (Reflector.port_init envAllocFail 0).result = Except.error (-1) ∧
    (Reflector.port_init envAllocFail 0).errs = ["Failed to allocate page-aligned memory"] ∧
    (Reflector.port_init envAllocFail 0).calls = [Call.validPort, Call.allocMem] ∧
    Call.rxSetup ∉ (Reflector.port_init envAllocFail 0).calls ∧
    Call.txSetup ∉ (Reflector.port_init envAllocFail 0).calls ∧
    Call.start ∉ (Reflector.port_init envAllocFail 0).calls ∧
    (Reflector.mainProg envAllocFail 0 ["reflector", "0"]).outcome = MainOutcome.exited 1 :=
  alloc_failure_aborts envAllocFail 0 0 ["reflector", "0"] rfl rfl

theorem progMain_spec (pinit : Nat → PIResult) (eal_ret : Int) (remaining : List String)
    (he : 0 ≤ eal_ret) :
    (setupOk pinit remaining = false →
      (progMain pinit eal_ret remaining).outcome = MainOutcome.exited 1 ∧
      (progMain pinit eal_ret remaining).outs ++ (progMain pinit eal_ret remaining).errs ≠ []) ∧
    (setupOk pinit remaining = true →
      (progMain pinit eal_ret remaining).outcome =
        MainOutcome.loops ((parseU16 (remaining.getD 1 "")).getD 0)
          ((parseU16 (remaining.getD 1 "")).getD 0)) := by
  have hne : ¬ eal_ret < 0 := by omega
  by_cases hr : remaining.length = 2
  · cases hp : parseU16 (remaining.getD 1 "") with
    | none =>
      have hso : setupOk pinit remaining = false := by
        unfold setupOk
        rw [hp]
        simp
      constructor
      · intro _
        unfold progMain
        rw [if_neg hne, if_neg (by simp [hr] : ¬ remaining.length ≠ 2), hp]
        exact ⟨rfl, by simp⟩
      · intro hcontra
        rw [hso] at hcontra
        simp at hcontra
    | some p =>
      cases hq : (pinit p).result with
      | error e =>
        have hso : setupOk pinit remaining = false := by
          unfold setupOk
          rw [hp]
          dsimp only
          rw [hq]
          simp [exceptOk]
        constructor
        · intro _
          unfold progMain
          rw [if_neg hne, if_neg (by simp [hr] : ¬ remaining.length ≠ 2), hp]
          dsimp only
          rw [hq]
          exact ⟨rfl, by simp⟩
        · intro hcontra
          rw [hso] at hcontra
          simp at hcontra
      | ok u =>
        have hso : setupOk pinit remaining = true := by
          unfold setupOk
          rw [hp]
          dsimp only
          rw [hq]
          simp [exceptOk, hr]
        constructor
        · intro hcontra
          rw [hso] at hcontra
          simp at hcontra
        · intro _
          unfold progMain
          rw [if_neg hne, if_neg (by simp [hr] : ¬ remaining.length ≠ 2), hp]
          dsimp only
          rw [hq]
          rfl
  · have hso : setupOk pinit remaining = false := by
      simp [setupOk, hr]
    constructor
    · intro _
      unfold progMain
      rw [if_neg hne, if_pos hr]
      exact ⟨rfl, by simp⟩
    · intro hcontra
      rw [hso] at hcontra
      simp at hcontra

/-- Claim C8: after successful EAL initialization, a wrong remaining
argument count, an unparsable port id, or a `port_init` failure makes the
program print a usage or error message and exit with status 1; otherwise it
enters the infinite forwarding loop `wire_ports(port, port)`.  Stated for
both `reflector.rs` (first two conjuncts) and `main.rs` (last two). -/
theorem cli_usage_behavior (env : DpdkEnv) (eal_ret : Int) (remaining : List String)
    (he : 0 ≤ eal_ret) :
    (setupOk (Reflector.port_init env) remaining = false →
      (Reflector.mainProg env eal_ret remaining).outcome = MainOutcome.exited 1 ∧
      (Reflector.mainProg env eal_ret remaining).outs ++
        (Reflector.mainProg env eal_ret remaining).errs ≠ []) ∧
    (setupOk (Reflector.port_init env) remaining = true →
      (Reflector.mainProg env eal_ret remaining).outcome =
        MainOutcome.loops ((parseU16 (remaining.getD 1 "")).getD 0)
          ((parseU16 (remaining.getD 1 "")).getD 0)) ∧
    (setupOk (MainRs.port_init env) remaining = false →
      (MainRs.mainProg env eal_ret remaining).outcome = MainOutcome.exited 1 ∧
      (MainRs.mainProg env eal_ret remaining).outs ++
        (MainRs.mainProg env eal_ret remaining).errs ≠ []) ∧
    (setupOk (MainRs.port_init env) remaining = true →
      (MainRs.mainProg env eal_ret remaining).outcome =
        MainOutcome.loops ((parseU16 (remaining.getD 1 "")).getD 0)
          ((parseU16 (remaining.getD 1 "")).getD 0)) :=
  ⟨(progMain_spec (Reflector.port_init env) eal_ret remaining he).1,
   (progMain_spec (Reflector.port_init env) eal_ret remaining he).2,
   (progMain_spec (MainRs.port_init env) eal_ret remaining he).1,
   (progMain_spec (MainRs.port_init env) eal_ret remaining he).2⟩

theorem cli_usage_behavior_case :
    (Reflector.mainProg envOk 0 ["reflector", "3"]).outcome = MainOutcome.loops 3 3 ∧
    (MainRs.mainProg envOk 0 ["reflector", "3"]).outcome = MainOutcome.loops 3 3 := by
  have h := cli_usage_behavior envOk 0 ["reflector", "3"] (by decide)
  exact ⟨h.2.1 (by decide), h.2.2.2 (by decide)⟩

/-- Claim C9 counterexample: in `reflector.rs`, a failing
`rte_eth_dev_configure` (status `-22`) makes `port_init` return the status
code with no diagnostic printed at all, so this setup failure does not
print a one-line diagnostic naming the failing stage. -/
theorem silent_configure_failure :
    (Reflector.port_init (envFailAt Stage.configure (-22)) 0).errs = [] ∧
    (Reflector.port_init (envFailAt Stage.configure (-22)) 0).result =
      Except.error (-22) :=
  ⟨rfl, rfl⟩

/-- Claim C9 (amended): in `main.rs::port_init` each of the six device-setup
stages prints, on failure, a one-line diagnostic naming the stage and
carrying the status code, and any two distinct stages print distinct lines;
in `reflector.rs::port_init` only the RX-queue-setup failure among these six
prints a diagnostic, while device-info, configure, descriptor-adjust,
TX-queue-setup and port-start failures return the status code silently. -/
theorem stage_diagnostics_amended (port : Nat) (code : Int) (hc : code < 0) :
    (mainStageErrs Stage.devInfo port code = [mainMsg Stage.devInfo port code]) ∧
    (mainStageErrs Stage.configure port code = [mainMsg Stage.configure port code]) ∧
    (mainStageErrs Stage.adjust port code = [mainMsg Stage.adjust port code]) ∧
    (mainStageErrs Stage.rxSetup port code = [mainMsg Stage.rxSetup port code]) ∧
    (mainStageErrs Stage.txSetup port code = [mainMsg Stage.txSetup port code]) ∧
    (mainStageErrs Stage.start port code = [mainMsg Stage.start port code]) ∧
    (∀ s1 s2 : Stage, s1 ≠ s2 → mainMsg s1 port code ≠ mainMsg s2 port code) ∧
    (reflStageErrs Stage.devInfo port code = [] ∧
      reflStageErrs Stage.configure port code = [] ∧
      reflStageErrs Stage.adjust port code = [] ∧
      reflStageErrs Stage.txSetup port code = [] ∧
      reflStageErrs Stage.start port code = []) ∧
    (reflStageErrs Stage.rxSetup port code =
      ["Error setting up RX queue: " ++ toString code]) := by
  have hne0 : code ≠ 0 := by omega
  have hkey : ∀ st : Stage, (mainMsg st port code).data.take 18 = stageKey st := by
    intro st
    cases st <;>
      (simp only [mainMsg, stageKey, String.data_append, List.append_assoc]
       rw [List.take_append_of_le_length (by decide)]
       decide)
  have hinj : ∀ s1 s2 : Stage, s1 ≠ s2 → mainMsg s1 port code ≠ mainMsg s2 port code := by
    intro s1 s2 hne heq
    have hk : stageKey s1 = stageKey s2 := by
      rw [← hkey s1, ← hkey s2, heq]
    revert hk hne
    cases s1 <;> cases s2 <;> decide
  refine ⟨?_, ?_, ?_, ?_, ?_, ?_, hinj, ⟨?_, ?_, ?_, ?_, ?_⟩, ?_⟩ <;>
    simp [mainStageErrs, reflStageErrs, MainRs.port_init, Reflector.port_init,
      envFailAt, mainMsg, hne0, hc]

theorem stage_diagnostics_amended_case :
    mainStageErrs Stage.configure 0 (-22) = [mainMsg Stage.configure 0 (-22)] ∧
    mainMsg Stage.configure 0 (-22) ≠ mainMsg Stage.adjust 0 (-22) ∧
    reflStageErrs Stage.configure 0 (-22) = [] := by
  have h := stage_diagnostics_amended 0 (-22) (by decide)
  exact ⟨h.2.1, h.2.2.2.2.2.2.1 Stage.configure Stage.adjust (by decide),
    h.2.2.2.2.2.2.2.1.2.1⟩
